import Mathlib

/-
Verification of `rest_framework_nested/relations.py`: a shallow embedding of
the two serializer field classes `NestedHyperlinkedRelatedField` and
`HyperlinkedRouterField`, together with theorems about their URL-resolution
behaviour.

Python objects are modelled by a heap of attribute maps; values are None,
booleans, integers, strings, or references into the heap.  Attribute access
(`getattr`/`hasattr`), Python truthiness, and Python `dict` literals and
indexing are embedded directly; external framework calls (`reverse`, the
queryset `get`, the base class `get_queryset`) are modelled as explicit
boundaries, following the collaborator contracts the code relies on.
-/

set_option autoImplicit false

namespace DrfNested

/-- A Python value: `None`, a bool, an int, a string, or a reference to a
heap object.  Objects are modelled by reference, matching Python identity
semantics. -/
inductive PyVal where
  | vnone
  | vbool (b : Bool)
  | vint (n : Int)
  | vstr (s : String)
  | ref (i : Nat)
deriving DecidableEq, Repr

/-- A Python object: an attribute map, plus a flag marking instances of the
framework class `PKOnlyObject` (a pk-only placeholder for a related object;
it carries only its `pk` attribute). -/
structure PyObj where
  attrs : List (String × PyVal)
  isPKOnly : Bool
deriving DecidableEq, Repr

/-- The heap: object identities mapped to objects. -/
abbrev Heap := List (Nat × PyObj)

/-- First binding of a key in an association list. -/
def attrLookup : List (String × PyVal) → String → Option PyVal
  | [], _ => none
  | (k, v) :: rest, name => if k = name then some v else attrLookup rest name

/-- Dereference a heap address. -/
def heapFind : Heap → Nat → Option PyObj
  | [], _ => none
  | (j, o) :: rest, i => if j = i then some o else heapFind rest i

/-- Python `getattr(v, name)`: `none` models an `AttributeError`.  Only heap
objects carry the custom attributes this code reads. -/
def getattr (h : Heap) (v : PyVal) (name : String) : Option PyVal :=
  match v with
  | .ref i =>
    match heapFind h i with
    | some o => attrLookup o.attrs name
    | none => none
  | _ => none

/-- Python `hasattr(v, name)`. -/
def hasattr (h : Heap) (v : PyVal) (name : String) : Bool :=
  (getattr h v name).isSome

/-- Python truthiness: `None`, `False`, `0` and `""` are falsy; objects are
truthy by default. -/
def truthy : PyVal → Bool
  | .vnone => false
  | .vbool b => b
  | .vint n => n != 0
  | .vstr s => s != ""
  | .ref _ => true

/-- Whether a value is an instance of the framework class `PKOnlyObject`. -/
def isPKOnlyObject (h : Heap) (v : PyVal) : Bool :=
  match v with
  | .ref i =>
    match heapFind h i with
    | some o => o.isPKOnly
    | none => false
  | _ => false

/-- The Python dict literal `\x7bk1: v1, k2: v2\x7d`: a later duplicate key
overrides the earlier entry. -/
def dict2 (k1 : String) (v1 : PyVal) (k2 : String) (v2 : PyVal) :
    List (String × PyVal) :=
  if k1 = k2 then [(k1, v2)] else [(k1, v1), (k2, v2)]

/-- Python dict indexing `d[k]`: `none` models a `KeyError`. -/
def dictGet (d : List (String × PyVal)) (k : String) : Option PyVal :=
  attrLookup d k

/-- Python dict assignment `d[k] = v`: overwrite in place if the key exists,
else append. -/
def dictSet (d : List (String × PyVal)) (k : String) (v : PyVal) :
    List (String × PyVal) :=
  if d.any (fun p => p.1 = k) then
    d.map (fun p => if p.1 = k then (k, v) else p)
  else
    d ++ [(k, v)]

/-- Result of a `get_url` call, up to the external `reverse` boundary:
either the method returned `None`, or it delegated to the reverse resolver
with a view name and a path-argument mapping, or an `AttributeError`
escaped from one of its attribute reads. -/
inductive UrlResult where
  | nullUrl
  | reverseCall (viewName : String) (kwargs : List (String × PyVal))
  | attrError (name : String)
deriving DecidableEq, Repr

/-- Errors surfaced by `get_object`: a `KeyError` from reading the matched
path arguments, or the queryset lookup failures `ObjectDoesNotExist` /
`MultipleObjectsReturned`. -/
inductive LookupErr where
  | keyError (k : String)
  | objectNotFound
  | multipleObjectsFound
deriving DecidableEq, Repr

/-- Configuration of a `NestedHyperlinkedRelatedField` instance: the five
lookup names fixed at construction.  `lookup_field` and `lookup_url_kwarg`
are handled by the (external) base class; the three parent names by the
subclass constructor. -/
structure NestedField where
  lookup_field : String
  parent_lookup_field : String
  parent_lookup_related_field : String
  lookup_url_kwarg : String
  parent_lookup_url_kwarg : String
deriving DecidableEq, Repr

/-- Embeds `NestedHyperlinkedRelatedField.__init__`: the three parent lookup
names are popped from the keyword arguments, with class defaults
`parent_lookup_field = "parent"` and `parent_lookup_related_field = "pk"`,
and `parent_lookup_url_kwarg` defaulting to the value of
`parent_lookup_field` computed on the preceding line.  `lookup_field` and
`lookup_url_kwarg` are set by the external base class and are passed
through as parameters here. -/
def NestedField.init (parentLookupFieldArg parentLookupUrlKwargArg
    parentLookupRelatedFieldArg : Option String)
    (lookupField lookupUrlKwarg : String) : NestedField :=
  let plf := parentLookupFieldArg.getD "parent"
  { lookup_field := lookupField
    parent_lookup_field := plf
    parent_lookup_url_kwarg := parentLookupUrlKwargArg.getD plf
    parent_lookup_related_field := parentLookupRelatedFieldArg.getD "pk"
    lookup_url_kwarg := lookupUrlKwarg }

/-- Embeds `NestedHyperlinkedRelatedField.get_url`:

* if the object has a `pk` attribute that is `None`, return `None`
  (unsaved objects have no URL);
* read `lookup_value` via `lookup_field` and the parent object via
  `parent_lookup_field` (an `AttributeError` propagates);
* if the parent object is truthy, read the parent value via
  `parent_lookup_related_field`, else use `None`;
* call `reverse` with the dict
  `\x7blookup_url_kwarg: lookup_value, parent_lookup_url_kwarg: parent_lookup_value\x7d`. -/
def NestedField.get_url (f : NestedField) (h : Heap) (obj : PyVal)
    (viewName : String) : UrlResult :=
  if getattr h obj "pk" = some .vnone then
    .nullUrl
  else
    match getattr h obj f.lookup_field with
    | none => .attrError f.lookup_field
    | some lookupValue =>
      match getattr h obj f.parent_lookup_field with
      | none => .attrError f.parent_lookup_field
      | some parentLookupObject =>
        if truthy parentLookupObject then
          match getattr h parentLookupObject f.parent_lookup_related_field with
          | none => .attrError f.parent_lookup_related_field
          | some parentLookupValue =>
            .reverseCall viewName
              (dict2 f.lookup_url_kwarg lookupValue
                     f.parent_lookup_url_kwarg parentLookupValue)
        else
          .reverseCall viewName
            (dict2 f.lookup_url_kwarg lookupValue
                   f.parent_lookup_url_kwarg .vnone)

/-- Modelled from the spec: the framework queryset lookup
`get_queryset().get(**kwargs)` is not part of this repository.  Per the
collaborator contract, an object matches a lookup entry when the named
attribute equals the value, or is a related object whose `pk` equals the
value (foreign-key coercion, as in the spec's end-to-end scenario);
`get` returns the unique match, fails with "object not found" on zero
matches and "multiple objects found" on two or more. -/
def matchesLookup (h : Heap) (o : PyVal) (lookups : List (String × PyVal)) :
    Bool :=
  lookups.all fun kv =>
    match getattr h o kv.1 with
    | none => false
    | some a =>
      a = kv.2 ||
        (match getattr h a "pk" with
         | some p => p = kv.2
         | none => false)

/-- Modelled from the spec: the queryset `get(**lookups)` call (external ORM
code), returning the unique matching object or the framework's lookup
failures. -/
def qget (h : Heap) (qs : List PyVal) (lookups : List (String × PyVal)) :
    Except LookupErr PyVal :=
  match qs.filter (fun o => matchesLookup h o lookups) with
  | [] => .error .objectNotFound
  | [o] => .ok o
  | _ => .error .multipleObjectsFound

/-- Embeds `NestedHyperlinkedRelatedField.get_object`: read the own and
parent identifiers out of the matched path arguments (a `KeyError`
propagates), build the compound lookup
`\x7blookup_field: lookup_value, parent_lookup_field: parent_lookup_value\x7d`,
and delegate to the queryset `get`. -/
def NestedField.get_object (f : NestedField) (h : Heap) (qs : List PyVal)
    (viewKwargs : List (String × PyVal)) : Except LookupErr PyVal :=
  match dictGet viewKwargs f.lookup_url_kwarg with
  | none => .error (.keyError f.lookup_url_kwarg)
  | some lookupValue =>
    match dictGet viewKwargs f.parent_lookup_url_kwarg with
    | none => .error (.keyError f.parent_lookup_url_kwarg)
    | some parentLookupValue =>
      qget h qs (dict2 f.lookup_field lookupValue
                       f.parent_lookup_field parentLookupValue)

/-- Configuration of a `HyperlinkedRouterField` instance: the lookup names
set by the (external) base class. -/
structure RouterCfg where
  lookup_field : String
  lookup_url_kwarg : String
deriving DecidableEq, Repr

/-- Embeds the keyword-argument handling of `HyperlinkedRouterField.__init__`:
the assignment `kwargs["many"] = False` is performed before delegating to
the base constructor, so the keyword arguments the base class receives
always carry `many = False`, whatever the caller supplied. -/
def RouterField.initKwargs (kwargs : List (String × PyVal)) :
    List (String × PyVal) :=
  dictSet kwargs "many" (.vbool false)

/-- Embeds `HyperlinkedRouterField.get_url`, an exact transcription of the
Python method:

* guard 1: if the object has the lookup attribute and it is `None`,
  return `None`;
* guard 2: if the object has an `instance` attribute whose value has the
  lookup attribute set to `None`, return `None`;
* if the object is a `PKOnlyObject`, read the lookup value off the
  serializer root's bound instance (`self.root.instance`);
* `elif` the object has the lookup attribute, read it off the object;
* `elif` the object's `instance` has the lookup attribute, read it there —
  note the Python expression `obj.instance` raises an `AttributeError`
  when the object has no `instance` attribute;
* `else` return `None`;
* finally call `reverse` with the single-entry dict mapping
  `lookup_url_kwarg` to the located value. -/
def RouterField.get_url (h : Heap) (cfg : RouterCfg) (rootInstance obj : PyVal)
    (viewName : String) : UrlResult :=
  if hasattr h obj cfg.lookup_field
      && (getattr h obj cfg.lookup_field == some PyVal.vnone) then
    .nullUrl
  else if hasattr h obj "instance"
      && (match getattr h obj "instance" with
          | some inst =>
            hasattr h inst cfg.lookup_field
              && (getattr h inst cfg.lookup_field == some PyVal.vnone)
          | none => false) then
    .nullUrl
  else if isPKOnlyObject h obj then
    match getattr h rootInstance cfg.lookup_field with
    | some v => .reverseCall viewName [(cfg.lookup_url_kwarg, v)]
    | none => .attrError cfg.lookup_field
  else if hasattr h obj cfg.lookup_field then
    match getattr h obj cfg.lookup_field with
    | some v => .reverseCall viewName [(cfg.lookup_url_kwarg, v)]
    | none => .attrError cfg.lookup_field
  else
    match getattr h obj "instance" with
    | none => .attrError "instance"
    | some inst =>
      if hasattr h inst cfg.lookup_field then
        match getattr h inst cfg.lookup_field with
        | some v => .reverseCall viewName [(cfg.lookup_url_kwarg, v)]
        | none => .attrError cfg.lookup_field
      else
        .nullUrl

/-- Follows the words of the claim about `HyperlinkedRouterField.get_url`
(NOT the source), for comparison with `RouterField.get_url`: locate the
lookup value by checking, in this order, (a) the bound object directly,
(b) the object's wrapped instance, (c) for a PK-only placeholder, the
serializer root's bound instance; return `None` when the object or its
instance exposes the lookup attribute but holds a null value, or when no
value can be located through any path; otherwise delegate to the resolver
with the single-key mapping. -/
def RouterField.get_url_claimed (h : Heap) (cfg : RouterCfg)
    (rootInstance obj : PyVal) (viewName : String) : UrlResult :=
  if getattr h obj cfg.lookup_field = some .vnone then
    .nullUrl
  else if (getattr h obj "instance").elim false
      (fun inst => getattr h inst cfg.lookup_field == some PyVal.vnone) then
    .nullUrl
  else
    match getattr h obj cfg.lookup_field with
    | some v => .reverseCall viewName [(cfg.lookup_url_kwarg, v)]
    | none =>
      match (getattr h obj "instance").bind
          (fun inst => getattr h inst cfg.lookup_field) with
      | some v => .reverseCall viewName [(cfg.lookup_url_kwarg, v)]
      | none =>
        if isPKOnlyObject h obj then
          match getattr h rootInstance cfg.lookup_field with
          | some v => .reverseCall viewName [(cfg.lookup_url_kwarg, v)]
          | none => .nullUrl
        else
          .nullUrl

/-- Mutable state of a `HyperlinkedRouterField` instance: the stored
queryset handle (initially `None`) and, as call-count instrumentation, the
number of times the related accessor `getattr(model, self.source).related`
has been evaluated. -/
structure RFState where
  queryset : PyVal
  accessorReads : Nat
deriving DecidableEq, Repr

/-- Modelled from the spec: the base class `get_queryset` (external
framework code) reads the stored queryset handle and returns it (possibly
refreshed); the override below computes it and discards the result. -/
def baseGetQueryset (queryset : PyVal) : PyVal :=
  queryset

/-- Embeds `HyperlinkedRouterField.get_queryset`: if the stored queryset is
falsy (`if not self.queryset`), evaluate the related accessor — whose
current value is the parameter `related` — and store it; then call the base
class `get_queryset()` and discard its result; the method body has no
`return` statement, so the call returns `None`. -/
def RouterField.get_queryset (related : PyVal) (s : RFState) :
    RFState × PyVal :=
  let s1 :=
    if truthy s.queryset then s
    else { queryset := related, accessorReads := s.accessorReads + 1 }
  let _discarded := baseGetQueryset s1.queryset
  (s1, .vnone)

/-- Iterate `get_queryset` calls on a field's state, with a fixed
environment (the related accessor's value). -/
def RouterField.iterateGetQueryset (related : PyVal) (s : RFState) :
    Nat → RFState
  | 0 => s
  | n + 1 =>
    RouterField.iterateGetQueryset related
      (RouterField.get_queryset related s).1 n

/-- Concrete test heap for the nested field, following the spec's
end-to-end scenario: object 0 is a child with pk 5 whose `parent`
attribute references object 1, the parent with pk 2; object 2 is a second
child with the same pk and parent (duplicate data); object 3 is a child
with pk 7 and no parent set; object 4 is an unsaved child whose pk is
None. -/
def scenarioHeap : Heap :=
  [ (0, ⟨[("pk", .vint 5), ("parent", .ref 1)], false⟩)
  , (1, ⟨[("pk", .vint 2)], false⟩)
  , (2, ⟨[("pk", .vint 5), ("parent", .ref 1)], false⟩)
  , (3, ⟨[("pk", .vint 7), ("parent", .vnone)], false⟩)
  , (4, ⟨[("pk", .vnone)], false⟩) ]

/-- The nested field configuration of the spec's end-to-end scenario. -/
def scenarioField : NestedField :=
  ⟨"pk", "parent", "pk", "pk", "parent_pk"⟩

/-- Concrete test heap for the router field: object 0 is a PK-only
placeholder with pk 1; object 1 is a serializer root instance with pk 2;
object 2 is a bare object with no attributes at all. -/
def routerHeap : Heap :=
  [ (0, ⟨[("pk", .vint 1)], true⟩)
  , (1, ⟨[("pk", .vint 2)], false⟩)
  , (2, ⟨[], false⟩) ]

/-- Default router field configuration (`lookup_field = lookup_url_kwarg =
"pk"`). -/
def routerCfg0 : RouterCfg := ⟨"pk", "pk"⟩

theorem attrLookup_eq_none_of_any_false (d : List (String × PyVal))
    (k : String) (h : d.any (fun p => p.1 = k) = false) :
    attrLookup d k = none := by
  induction d with
  | nil => rfl
  | cons p rest ih =>
    simp only [List.any_cons, Bool.or_eq_false_iff] at h
    obtain ⟨a, b⟩ := p
    simp only [attrLookup]
    rw [if_neg (by simpa using h.1)]
    exact ih h.2

theorem attrLookup_append_of_none (d e : List (String × PyVal)) (k : String)
    (h : attrLookup d k = none) :
    attrLookup (d ++ e) k = attrLookup e k := by
  induction d with
  | nil => rfl
  | cons p rest ih =>
    obtain ⟨a, b⟩ := p
    simp only [attrLookup] at h ⊢
    by_cases hp : a = k
    · rw [if_pos hp] at h; exact absurd h (by simp)
    · rw [if_neg hp] at h ⊢
      exact ih h

theorem attrLookup_map_overwrite (d : List (String × PyVal)) (k : String)
    (v : PyVal) :
    attrLookup (d.map (fun p => if p.1 = k then (k, v) else p)) k
      = if d.any (fun p => p.1 = k) then some v else none := by
  induction d with
  | nil => rfl
  | cons p rest ih =>
    obtain ⟨a, b⟩ := p
    by_cases hp : a = k
    · subst hp
      have hhead : (if ((a, b) : String × PyVal).1 = a then (a, v) else (a, b))
          = (a, v) := by simp
      rw [List.map_cons, hhead]
      simp [attrLookup]
    · have hhead : (if ((a, b) : String × PyVal).1 = k then (k, v) else (a, b))
          = (a, b) := by simp [hp]
      rw [List.map_cons, hhead]
      simp only [attrLookup, List.any_cons]
      rw [if_neg hp, ih]
      have hd : decide (a = k) = false := by simp [hp]
      simp only [hd, Bool.false_or]

theorem dictGet_dictSet_self (d : List (String × PyVal)) (k : String)
    (v : PyVal) :
    dictGet (dictSet d k v) k = some v := by
  unfold dictGet dictSet
  cases hany : d.any (fun p => p.1 = k) with
  | true =>
    rw [if_pos rfl, attrLookup_map_overwrite, if_pos hany]
  | false =>
    rw [if_neg (by simp),
        attrLookup_append_of_none _ _ _ (attrLookup_eq_none_of_any_false d k hany)]
    simp [attrLookup]

/-- C7: every construction of `HyperlinkedRouterField` forces the
multiplicity flag off — the keyword arguments handed to the base
constructor always carry `many = False`, regardless of any `many` value
the caller supplied, so the field never represents a many-relation
list. -/
theorem routerField_forces_many_off (kwargs : List (String × PyVal)) :
    dictGet (RouterField.initKwargs kwargs) "many" = some (.vbool false) :=
  dictGet_dictSet_self kwargs "many" (.vbool false)

/-- C8: when `parent_lookup_url_kwarg` is not supplied to
`NestedHyperlinkedRelatedField.__init__`, it equals the field's
`parent_lookup_field` (including a caller-supplied `parent_lookup_field`
override); when supplied, the given value is used exactly. -/
theorem nestedField_parent_url_kwarg_default
    (plfArg plrfArg : Option String) (lf luk s : String) :
    (NestedField.init plfArg none plrfArg lf luk).parent_lookup_url_kwarg
      = (NestedField.init plfArg none plrfArg lf luk).parent_lookup_field
    ∧ (NestedField.init plfArg (some s) plrfArg lf luk).parent_lookup_url_kwarg
      = s := by
  constructor <;> simp [NestedField.init]

/-- C4: for every object whose `pk` attribute exists and is None (an
unsaved object), `NestedHyperlinkedRelatedField.get_url` returns None and
never delegates to the reverse resolver. -/
theorem nested_get_url_unsaved_null (f : NestedField) (h : Heap)
    (obj : PyVal) (vn : String)
    (hpk : getattr h obj "pk" = some .vnone) :
    f.get_url h obj vn = .nullUrl
      ∧ ∀ vn2 kw, f.get_url h obj vn ≠ .reverseCall vn2 kw := by
  have h1 : f.get_url h obj vn = .nullUrl := by
    unfold NestedField.get_url
    rw [if_pos hpk]
  exact ⟨h1, fun vn2 kw hc => by rw [h1] at hc; exact UrlResult.noConfusion hc⟩

/-- Witness for C4: the unsaved child (heap object 4, pk None) gets a null
URL. -/
theorem nested_get_url_unsaved_null_witness :
    NestedField.get_url scenarioField scenarioHeap (.ref 4) "child-detail"
      = .nullUrl :=
  (nested_get_url_unsaved_null scenarioField scenarioHeap (.ref 4)
    "child-detail" (by decide)).1

/-- C9: `HyperlinkedRouterField.get_queryset` returns None on every call
— in the cached case and in the freshly-computed case alike — and the
queryset handle it assigns is never returned to the caller (the base
class result `baseGetQueryset` is computed and discarded in the
definition of `RouterField.get_queryset`). -/
theorem routerField_get_queryset_returns_none (related : PyVal)
    (s : RFState) :
    (RouterField.get_queryset related s).2 = .vnone
      ∧ (truthy s.queryset = false →
          (RouterField.get_queryset related s).1.queryset = related
            ∧ (RouterField.get_queryset related s).2 = .vnone) := by
  unfold RouterField.get_queryset
  refine ⟨rfl, fun hf => ⟨?_, rfl⟩⟩
  simp [hf]

/-- Witness for C9: from an unset queryset the call assigns the accessor's
value yet still returns None. -/
theorem routerField_get_queryset_returns_none_witness :
    (RouterField.get_queryset (.vint 3) ⟨.vnone, 0⟩).1.queryset = .vint 3
      ∧ (RouterField.get_queryset (.vint 3) ⟨.vnone, 0⟩).2 = .vnone :=
  (routerField_get_queryset_returns_none (.vint 3) ⟨.vnone, 0⟩).2 rfl

theorem nested_get_url_parent_present (f : NestedField) (h : Heap)
    (obj po lv pv : PyVal) (vn : String)
    (hpk : getattr h obj "pk" ≠ some .vnone)
    (hlv : getattr h obj f.lookup_field = some lv)
    (hpo : getattr h obj f.parent_lookup_field = some po)
    (hpt : truthy po = true)
    (hpv : getattr h po f.parent_lookup_related_field = some pv)
    (hk : f.lookup_url_kwarg ≠ f.parent_lookup_url_kwarg) :
    f.get_url h obj vn
      = .reverseCall vn
          [(f.lookup_url_kwarg, lv), (f.parent_lookup_url_kwarg, pv)] := by
  unfold NestedField.get_url
  rw [if_neg hpk]
  simp [hlv, hpo, hpt, hpv, dict2, hk]

theorem nested_get_url_parent_absent (f : NestedField) (h : Heap)
    (obj po lv : PyVal) (vn : String)
    (hpk : getattr h obj "pk" ≠ some .vnone)
    (hlv : getattr h obj f.lookup_field = some lv)
    (hpo : getattr h obj f.parent_lookup_field = some po)
    (hpf : truthy po = false)
    (hk : f.lookup_url_kwarg ≠ f.parent_lookup_url_kwarg) :
    f.get_url h obj vn
      = .reverseCall vn
          [(f.lookup_url_kwarg, lv), (f.parent_lookup_url_kwarg, .vnone)] := by
  unfold NestedField.get_url
  rw [if_neg hpk]
  simp [hlv, hpo, hpf, dict2, hk]

/-- C1: for every object with a set primary key,
`NestedHyperlinkedRelatedField.get_url` passes to the reverse resolver
exactly the two-key mapping sending `lookup_url_kwarg` to the object's
`lookup_field` value and `parent_lookup_url_kwarg` to the parent's
`parent_lookup_related_field` value; when the parent object is absent
(falsy), the parent entry is None and no error is raised.  The two URL
kwargs are distinct, as they name distinct path parameters. -/
theorem nested_get_url_kwargs (f : NestedField) (h : Heap)
    (obj po lv : PyVal) (vn : String)
    (hpk : getattr h obj "pk" ≠ some .vnone)
    (hlv : getattr h obj f.lookup_field = some lv)
    (hpo : getattr h obj f.parent_lookup_field = some po)
    (hk : f.lookup_url_kwarg ≠ f.parent_lookup_url_kwarg) :
    (∀ pv, truthy po = true →
        getattr h po f.parent_lookup_related_field = some pv →
        f.get_url h obj vn
          = .reverseCall vn
              [(f.lookup_url_kwarg, lv), (f.parent_lookup_url_kwarg, pv)])
    ∧ (truthy po = false →
        f.get_url h obj vn
          = .reverseCall vn
              [(f.lookup_url_kwarg, lv), (f.parent_lookup_url_kwarg, .vnone)]) :=
  ⟨fun pv hpt hpv =>
      nested_get_url_parent_present f h obj po lv pv vn hpk hlv hpo hpt hpv hk,
   fun hpf =>
      nested_get_url_parent_absent f h obj po lv vn hpk hlv hpo hpf hk⟩

/-- Witness for C1: the scenario child (pk 5, parent pk 2) maps to the
two-key dict, and the parentless child (pk 7) maps with a None parent
entry. -/
theorem nested_get_url_kwargs_witness :
    NestedField.get_url scenarioField scenarioHeap (.ref 0) "child-detail"
      = .reverseCall "child-detail" [("pk", .vint 5), ("parent_pk", .vint 2)]
    ∧ NestedField.get_url scenarioField scenarioHeap (.ref 3) "child-detail"
      = .reverseCall "child-detail" [("pk", .vint 7), ("parent_pk", .vnone)] :=
  ⟨(nested_get_url_kwargs scenarioField scenarioHeap (.ref 0) (.ref 1)
      (.vint 5) "child-detail" (by decide) (by decide) (by decide)
      (by decide)).1 (.vint 2) rfl (by decide),
   (nested_get_url_kwargs scenarioField scenarioHeap (.ref 3) .vnone
      (.vint 7) "child-detail" (by decide) (by decide) (by decide)
      (by decide)).2 rfl⟩

/-- C2: backward resolution inverts forward resolution.  For an object
uniquely reachable by the compound lookup built from its own lookup value
and its parent's identifier (the queryset `get` at that lookup returns
exactly this object), `get_object` applied to the path-argument mapping
that `get_url` passes to the resolver returns the same object. -/
theorem nested_get_object_inverts_get_url (f : NestedField) (h : Heap)
    (qs : List PyVal) (obj po lv pv : PyVal) (vn : String)
    (hpk : getattr h obj "pk" ≠ some .vnone)
    (hlv : getattr h obj f.lookup_field = some lv)
    (hpo : getattr h obj f.parent_lookup_field = some po)
    (hpt : truthy po = true)
    (hpv : getattr h po f.parent_lookup_related_field = some pv)
    (hk : f.lookup_url_kwarg ≠ f.parent_lookup_url_kwarg)
    (huniq : qget h qs (dict2 f.lookup_field lv f.parent_lookup_field pv)
      = .ok obj) :
    ∃ K, f.get_url h obj vn = .reverseCall vn K
      ∧ f.get_object h qs K = .ok obj := by
  refine ⟨[(f.lookup_url_kwarg, lv), (f.parent_lookup_url_kwarg, pv)],
    nested_get_url_parent_present f h obj po lv pv vn hpk hlv hpo hpt hpv hk,
    ?_⟩
  have h1 : dictGet [(f.lookup_url_kwarg, lv), (f.parent_lookup_url_kwarg, pv)]
      f.lookup_url_kwarg = some lv := by
    simp [dictGet, attrLookup]
  have h2 : dictGet [(f.lookup_url_kwarg, lv), (f.parent_lookup_url_kwarg, pv)]
      f.parent_lookup_url_kwarg = some pv := by
    simp [dictGet, attrLookup, hk]
  unfold NestedField.get_object
  simp only [h1, h2]
  exact huniq

/-- Witness for C2: the spec's end-to-end scenario — child pk 5, parent
pk 2, queryset containing exactly that child — round-trips. -/
theorem nested_get_object_inverts_get_url_witness :
    ∃ K, NestedField.get_url scenarioField scenarioHeap (.ref 0)
          "child-detail" = .reverseCall "child-detail" K
      ∧ NestedField.get_object scenarioField scenarioHeap [.ref 0] K
          = .ok (.ref 0) :=
  nested_get_object_inverts_get_url scenarioField scenarioHeap [.ref 0]
    (.ref 0) (.ref 1) (.vint 5) (.vint 2) "child-detail"
    (by decide) (by decide) (by decide) rfl (by decide) (by decide) rfl

/-- C5: `get_object` propagates the queryset lookup's failures unchanged:
it returns exactly the queryset `get` outcome at the compound lookup, so
a lookup matching zero objects fails with "object not found" and one
matching two or more fails with "multiple objects found"; neither case is
recovered locally. -/
theorem nested_get_object_propagates (f : NestedField) (h : Heap)
    (qs : List PyVal) (vk : List (String × PyVal)) (lv plv : PyVal)
    (h1 : dictGet vk f.lookup_url_kwarg = some lv)
    (h2 : dictGet vk f.parent_lookup_url_kwarg = some plv) :
    f.get_object h qs vk
        = qget h qs (dict2 f.lookup_field lv f.parent_lookup_field plv)
      ∧ (qs.filter (fun o => matchesLookup h o
            (dict2 f.lookup_field lv f.parent_lookup_field plv)) = [] →
          f.get_object h qs vk = .error .objectNotFound)
      ∧ (∀ o1 o2 rest, qs.filter (fun o => matchesLookup h o
            (dict2 f.lookup_field lv f.parent_lookup_field plv))
              = o1 :: o2 :: rest →
          f.get_object h qs vk = .error .multipleObjectsFound) := by
  have hbase : f.get_object h qs vk
      = qget h qs (dict2 f.lookup_field lv f.parent_lookup_field plv) := by
    unfold NestedField.get_object
    simp only [h1, h2]
  refine ⟨hbase, fun hz => ?_, fun o1 o2 rest hm => ?_⟩
  · rw [hbase]; unfold qget; rw [hz]
  · rw [hbase]; unfold qget; rw [hm]

/-- Witness for C5: with the scenario path arguments, an empty queryset
yields "object not found" and a queryset holding two equal-keyed children
yields "multiple objects found". -/
theorem nested_get_object_propagates_witness :
    NestedField.get_object scenarioField scenarioHeap []
        [("pk", .vint 5), ("parent_pk", .vint 2)] = .error .objectNotFound
    ∧ NestedField.get_object scenarioField scenarioHeap [.ref 0, .ref 2]
        [("pk", .vint 5), ("parent_pk", .vint 2)]
          = .error .multipleObjectsFound :=
  ⟨(nested_get_object_propagates scenarioField scenarioHeap []
      [("pk", .vint 5), ("parent_pk", .vint 2)] (.vint 5) (.vint 2)
      rfl (by decide)).2.1 rfl,
   (nested_get_object_propagates scenarioField scenarioHeap [.ref 0, .ref 2]
      [("pk", .vint 5), ("parent_pk", .vint 2)] (.vint 5) (.vint 2)
      rfl (by decide)).2.2 (.ref 0) (.ref 2) [] (by decide)⟩

/-- C10: `get_object` requires both `lookup_url_kwarg` and
`parent_lookup_url_kwarg` as keys of the matched path arguments: a
missing key fails with a KeyError naming that kwarg — structurally before
the queryset lookup, whose outcomes are the other `LookupErr`
constructors — and in particular not with "object not found". -/
theorem nested_get_object_requires_kwargs (f : NestedField) (h : Heap)
    (qs : List PyVal) (vk : List (String × PyVal)) :
    (dictGet vk f.lookup_url_kwarg = none →
        f.get_object h qs vk = .error (.keyError f.lookup_url_kwarg)
          ∧ f.get_object h qs vk ≠ .error .objectNotFound)
    ∧ (∀ lv, dictGet vk f.lookup_url_kwarg = some lv →
        dictGet vk f.parent_lookup_url_kwarg = none →
        f.get_object h qs vk = .error (.keyError f.parent_lookup_url_kwarg)
          ∧ f.get_object h qs vk ≠ .error .objectNotFound) := by
  constructor
  · intro hnone
    have he : f.get_object h qs vk = .error (.keyError f.lookup_url_kwarg) := by
      unfold NestedField.get_object
      simp only [hnone]
    exact ⟨he, by simp [he]⟩
  · intro lv hsome hnone
    have he : f.get_object h qs vk
        = .error (.keyError f.parent_lookup_url_kwarg) := by
      unfold NestedField.get_object
      simp only [hsome, hnone]
    exact ⟨he, by simp [he]⟩

/-- Witness for C10: empty path arguments fail with a KeyError on the own
kwarg; path arguments carrying only the own kwarg fail with a KeyError on
the parent kwarg. -/
theorem nested_get_object_requires_kwargs_witness :
    NestedField.get_object scenarioField scenarioHeap [.ref 0] []
        = .error (.keyError "pk")
    ∧ NestedField.get_object scenarioField scenarioHeap [.ref 0]
        [("pk", .vint 5)] = .error (.keyError "parent_pk") :=
  ⟨((nested_get_object_requires_kwargs scenarioField scenarioHeap [.ref 0]
      []).1 rfl).1,
   ((nested_get_object_requires_kwargs scenarioField scenarioHeap [.ref 0]
      [("pk", .vint 5)]).2 (.vint 5) rfl rfl).1⟩

theorem get_queryset_state_of_truthy (related : PyVal) (s : RFState)
    (ht : truthy s.queryset = true) :
    (RouterField.get_queryset related s).1 = s := by
  unfold RouterField.get_queryset
  simp [ht]

theorem iterateGetQueryset_of_truthy (related : PyVal) (s : RFState)
    (ht : truthy s.queryset = true) (n : Nat) :
    RouterField.iterateGetQueryset related s n = s := by
  induction n with
  | zero => rfl
  | succ n ih =>
    simp only [RouterField.iterateGetQueryset]
    rw [get_queryset_state_of_truthy related s ht]
    exact ih

/-- Counterexample for C6: the memoization guard of
`HyperlinkedRouterField.get_queryset` is Python truthiness, not presence.
When the related accessor yields a falsy value (here the integer 0), the
accessor is read again on every call: after two calls from a fresh state
the instrumented read count is 2, not 1 as the claim requires. -/
theorem routerField_memoization_counterexample :
    (RouterField.iterateGetQueryset (.vint 0) ⟨.vnone, 0⟩ 2).accessorReads = 2
    ∧ ¬ ((RouterField.iterateGetQueryset (.vint 0)
          ⟨.vnone, 0⟩ 2).accessorReads = 1) := by
  decide

/-- C6 amended: provided the related accessor yields a truthy queryset
value, queryset resolution is computed at most once per field instance:
starting from an unset handle, any sequence of n ≥ 1 `get_queryset` calls
reads the accessor exactly once, and the cached queryset handle is the
accessor's value, unchanged by later calls. -/
theorem routerField_memoizes_truthy (related : PyVal) (n : Nat)
    (ht : truthy related = true) (hn : 1 ≤ n) :
    RouterField.iterateGetQueryset related ⟨.vnone, 0⟩ n
      = ⟨related, 1⟩ := by
  obtain ⟨m, rfl⟩ : ∃ m, n = m + 1 := ⟨n - 1, by omega⟩
  have h1 : (RouterField.get_queryset related ⟨.vnone, 0⟩).1
      = ⟨related, 1⟩ := by
    unfold RouterField.get_queryset
    simp [truthy]
  simp only [RouterField.iterateGetQueryset]
  rw [h1]
  exact iterateGetQueryset_of_truthy related ⟨related, 1⟩ ht m

/-- Witness for C6 amended: a truthy accessor value (the integer 1) is
read once across three calls and stays cached. -/
theorem routerField_memoizes_truthy_witness :
    RouterField.iterateGetQueryset (.vint 1) ⟨.vnone, 0⟩ 3
      = ⟨.vint 1, 1⟩ :=
  routerField_memoizes_truthy (.vint 1) 3 (by decide) (by omega)

/-- Counterexample for C3: the claim's lookup order — object first, then
instance, then the placeholder fallback, with null whenever nothing is
located — disagrees with the source.  On a PK-only placeholder carrying
pk 1 while the root instance carries pk 2, the code reads the root
instance (pk 2), not the object (pk 1); and on a bare object exposing
neither the lookup attribute nor a wrapped instance, the code evaluates
`obj.instance` and raises an attribute error instead of returning
null. -/
theorem routerField_get_url_claim_counterexample :
    (RouterField.get_url routerHeap routerCfg0 (.ref 1) (.ref 0) "v"
        = .reverseCall "v" [("pk", .vint 2)]
      ∧ RouterField.get_url_claimed routerHeap routerCfg0 (.ref 1) (.ref 0) "v"
        = .reverseCall "v" [("pk", .vint 1)])
    ∧ (RouterField.get_url routerHeap routerCfg0 .vnone (.ref 2) "v"
        = .attrError "instance"
      ∧ RouterField.get_url_claimed routerHeap routerCfg0 .vnone (.ref 2) "v"
        = .nullUrl) := by
  decide

/-- C3 amended: `HyperlinkedRouterField.get_url` locates the lookup value
by checking the PK-only placeholder case first (reading the serializer
root's bound instance), then the bound object directly, then the object's
wrapped instance; if the object or its instance exposes the lookup
attribute but holds a null value it returns null; a (non-placeholder)
object whose wrapped instance lacks the lookup attribute gets null, but
an object exposing neither the lookup attribute nor a wrapped instance
raises an attribute error rather than returning null; a located value is
delegated to the resolver as exactly the single-key mapping from
`lookup_url_kwarg`. -/
theorem routerField_get_url_resolution (h : Heap) (cfg : RouterCfg)
    (rootInstance obj : PyVal) (vn : String) :
    (∀ v, isPKOnlyObject h obj = true →
        getattr h obj cfg.lookup_field ≠ some .vnone →
        getattr h obj "instance" = none →
        getattr h rootInstance cfg.lookup_field = some v →
        RouterField.get_url h cfg rootInstance obj vn
          = .reverseCall vn [(cfg.lookup_url_kwarg, v)])
    ∧ (∀ v, isPKOnlyObject h obj = false →
        getattr h obj cfg.lookup_field = some v → v ≠ .vnone →
        getattr h obj "instance" = none →
        RouterField.get_url h cfg rootInstance obj vn
          = .reverseCall vn [(cfg.lookup_url_kwarg, v)])
    ∧ (∀ inst v, isPKOnlyObject h obj = false →
        getattr h obj cfg.lookup_field = none →
        getattr h obj "instance" = some inst →
        getattr h inst cfg.lookup_field = some v → v ≠ .vnone →
        RouterField.get_url h cfg rootInstance obj vn
          = .reverseCall vn [(cfg.lookup_url_kwarg, v)])
    ∧ (∀ inst, isPKOnlyObject h obj = false →
        getattr h obj cfg.lookup_field = none →
        getattr h obj "instance" = some inst →
        getattr h inst cfg.lookup_field = none →
        RouterField.get_url h cfg rootInstance obj vn = .nullUrl)
    ∧ (isPKOnlyObject h obj = false →
        getattr h obj cfg.lookup_field = none →
        getattr h obj "instance" = none →
        RouterField.get_url h cfg rootInstance obj vn
          = .attrError "instance")
    ∧ (getattr h obj cfg.lookup_field = some .vnone →
        RouterField.get_url h cfg rootInstance obj vn = .nullUrl)
    ∧ (∀ inst, getattr h obj cfg.lookup_field ≠ some .vnone →
        getattr h obj "instance" = some inst →
        getattr h inst cfg.lookup_field = some .vnone →
        RouterField.get_url h cfg rootInstance obj vn = .nullUrl) := by
  refine ⟨fun v hpko hnn hni hroot => ?_, fun v hpko hv hvn hni => ?_,
    fun inst v hpko hlf hinst hiv hvn => ?_,
    fun inst hpko hlf hinst hifn => ?_, fun hpko hlf hni => ?_,
    fun hnull => ?_, fun inst hnn hinst hinull => ?_⟩
  · unfold RouterField.get_url
    simp [hasattr, hnn, hni, hpko, hroot]
  · unfold RouterField.get_url
    simp [hasattr, hv, hvn, hni, hpko]
  · unfold RouterField.get_url
    simp [hasattr, hlf, hinst, hiv, hvn, hpko]
  · unfold RouterField.get_url
    simp [hasattr, hlf, hinst, hifn, hpko]
  · unfold RouterField.get_url
    simp [hasattr, hlf, hni, hpko]
  · unfold RouterField.get_url
    simp [hasattr, hnull]
  · unfold RouterField.get_url
    simp [hasattr, hnn, hinst, hinull]

/-- Witness for C3 amended: the placeholder case — a PK-only object (pk 1)
with root instance pk 2 resolves through the root instance. -/
theorem routerField_get_url_resolution_witness :
    RouterField.get_url routerHeap routerCfg0 (.ref 1) (.ref 0)
        "children-list" = .reverseCall "children-list" [("pk", .vint 2)] :=
  (routerField_get_url_resolution routerHeap routerCfg0 (.ref 1) (.ref 0)
    "children-list").1 (.vint 2) rfl (by decide) rfl rfl

end DrfNested
